import Mathlib

/-!
Shallow embedding of the transaction-admission front end of x1-labs/tachyon:
the compute-budget instruction processor, cost model and fee calculators in
`src/sdk/src/fee.rs` and `src/fee/src/lib.rs`, and the packet intake layer in
`src/core/src/banking_stage/immutable_deserialized_packet.rs`.

Machine integers are modelled as `Nat` with explicit saturation at the
type's maximum where the source uses `saturating_*` operations, and explicit
`% 256` where the source casts an index `as u8`.
-/

namespace Tachyon

/-- Rust `u32::MAX`. -/
def U32_MAX : Nat := 2 ^ 32 - 1

/-- Rust `u64::MAX`. -/
def U64_MAX : Nat := 2 ^ 64 - 1

/-- Rust `usize::MAX` (64-bit target). -/
def USIZE_MAX : Nat := 2 ^ 64 - 1

/-- Rust `u32::saturating_add`. -/
def satAddU32 (a b : Nat) : Nat := min (a + b) U32_MAX

/-- Rust `u32::saturating_mul`. -/
def satMulU32 (a b : Nat) : Nat := min (a * b) U32_MAX

/-- Rust `u64::saturating_add`. -/
def satAddU64 (a b : Nat) : Nat := min (a + b) U64_MAX

/-- Rust `u64::saturating_mul`. -/
def satMulU64 (a b : Nat) : Nat := min (a * b) U64_MAX

/-- Program ids (pubkeys) that the embedded code distinguishes: the keys of
`BUILT_IN_INSTRUCTION_COSTS` in `src/sdk/src/fee.rs`, among which the
compute-budget program id (`compute_budget::check_id`) and the vote program
id (`solana_sdk::vote::program::id`); every other pubkey is `other n`. -/
inductive Pid where
  | stake
  | config
  | vote
  | system
  | computeBudget
  | addressLookupTable
  | bpfLoaderUpgradeable
  | bpfLoader
  | bpfLoader2
  | loaderV4
  | keccakSecp256k1
  | ed25519SigVerify
  | other (n : Nat)
deriving DecidableEq, Repr

/-- Rust `BUILT_IN_INSTRUCTION_COSTS` from `src/sdk/src/fee.rs` lines 39-58:
static table from builtin program id to per-instruction cost. -/
def BUILT_IN_INSTRUCTION_COSTS : Pid → Option Nat
  | .stake => some 750
  | .config => some 450
  | .vote => some 2100
  | .system => some 150
  | .computeBudget => some 150
  | .addressLookupTable => some 750
  | .bpfLoaderUpgradeable => some 2370
  | .bpfLoader => some 1140
  | .bpfLoader2 => some 570
  | .loaderV4 => some 2000
  | .keccakSecp256k1 => some 0
  | .ed25519SigVerify => some 0
  | .other _ => none

/-- Rust `ComputeBudgetInstruction`: the four compute-budget directive kinds, as
decoded by `try_from_slice_unchecked` in `src/sdk/src/fee.rs`. Payload
values are the decoded `u32`/`u64` fields. -/
inductive CBInstr where
  | requestHeapFrame (bytes : Nat)
  | setComputeUnitLimit (units : Nat)
  | setComputeUnitPrice (microLamports : Nat)
  | setLoadedAccountsDataSizeLimit (bytes : Nat)
deriving DecidableEq, Repr

/-- A compiled instruction as the embedded functions observe it: its program
id, the result of Borsh-decoding its data as a `ComputeBudgetInstruction`
(`none` when `try_from_slice_unchecked` fails), and its data length. -/
structure Instr where
  programId : Pid
  parse : Option CBInstr
  dataLen : Nat
deriving DecidableEq, Repr

/-- A sanitized message as the embedded fee functions observe it: its
account keys and its `program_instructions_iter` stream. -/
structure Message where
  accountKeys : List Pid
  instrs : List Instr
deriving DecidableEq, Repr

/-- Rust `TransactionError` variants produced by
`process_compute_budget_instructions`: `InstructionError(i as u8,
InvalidInstructionData)` and `DuplicateInstruction(i as u8)`; the index is
the `u8`-truncated instruction position. -/
inductive TxErr where
  | InstructionError (idx : Nat)
  | DuplicateInstruction (idx : Nat)
deriving DecidableEq, Repr

/-- Rust `ComputeBudgetLimits` from `src/sdk/src/fee.rs` lines 186-192. -/
structure ComputeBudgetLimits where
  updatedHeapBytes : Nat
  computeUnitLimit : Nat
  computeUnitPrice : Nat
  loadedAccountsBytes : Nat
deriving DecidableEq, Repr

/-- Rust `HEAP_LENGTH = 32 * 1024`. -/
def HEAP_LENGTH : Nat := 32 * 1024

/-- Rust `MAX_HEAP_FRAME_BYTES = 256 * 1024`. -/
def MAX_HEAP_FRAME_BYTES : Nat := 256 * 1024

/-- Rust `DEFAULT_INSTRUCTION_COMPUTE_UNIT_LIMIT = 200_000`. -/
def DEFAULT_INSTRUCTION_COMPUTE_UNIT_LIMIT : Nat := 200000

/-- Rust `MAX_COMPUTE_UNIT_LIMIT = 1_400_000`. -/
def MAX_COMPUTE_UNIT_LIMIT : Nat := 1400000

/-- Rust `MAX_LOADED_ACCOUNTS_DATA_SIZE_BYTES = 64 * 1024 * 1024`. -/
def MAX_LOADED_ACCOUNTS_DATA_SIZE_BYTES : Nat := 64 * 1024 * 1024

/-- Rust `sanitize_requested_heap_size` from `src/sdk/src/fee.rs` lines 194-197. -/
def sanitize_requested_heap_size (bytes : Nat) : Bool :=
  decide (HEAP_LENGTH ≤ bytes) && decide (bytes ≤ MAX_HEAP_FRAME_BYTES)
    && decide (bytes % 1024 = 0)

/-- The mutable scan state of `process_compute_budget_instructions`:
the four `Option` registers and the ordinary-instruction counter. -/
structure CBState where
  numNonComputeBudgetInstructions : Nat
  updatedComputeUnitLimit : Option Nat
  updatedComputeUnitPrice : Option Nat
  requestedHeapSize : Option Nat
  updatedLoadedAccountsDataSizeLimit : Option Nat
deriving DecidableEq, Repr

/-- The initial scan state (all registers `None`, counter `0`). -/
def CBState.init : CBState := ⟨0, none, none, none, none⟩

/-- One iteration of the loop in `process_compute_budget_instructions`
(`src/sdk/src/fee.rs` lines 207-251) at position `i`. -/
def cbStep (i : Nat) (st : CBState) (ins : Instr) : Except TxErr CBState :=
  if ins.programId = Pid.computeBudget then
    match ins.parse with
    | some (.requestHeapFrame bytes) =>
        if st.requestedHeapSize.isSome then
          .error (.DuplicateInstruction (i % 256))
        else if sanitize_requested_heap_size bytes then
          .ok { st with requestedHeapSize := some bytes }
        else
          .error (.InstructionError (i % 256))
    | some (.setComputeUnitLimit units) =>
        if st.updatedComputeUnitLimit.isSome then
          .error (.DuplicateInstruction (i % 256))
        else
          .ok { st with updatedComputeUnitLimit := some units }
    | some (.setComputeUnitPrice microLamports) =>
        if st.updatedComputeUnitPrice.isSome then
          .error (.DuplicateInstruction (i % 256))
        else
          .ok { st with updatedComputeUnitPrice := some microLamports }
    | some (.setLoadedAccountsDataSizeLimit bytes) =>
        if st.updatedLoadedAccountsDataSizeLimit.isSome then
          .error (.DuplicateInstruction (i % 256))
        else
          .ok { st with updatedLoadedAccountsDataSizeLimit := some bytes }
    | none => .error (.InstructionError (i % 256))
  else
    .ok { st with
      numNonComputeBudgetInstructions :=
        satAddU32 st.numNonComputeBudgetInstructions 1 }

/-- The indexed left-to-right scan of `process_compute_budget_instructions`,
stopping at the first error. -/
def cbScan (i : Nat) (st : CBState) : List Instr → Except TxErr CBState
  | [] => .ok st
  | ins :: rest =>
      match cbStep i st ins with
      | .ok st' => cbScan (i + 1) st' rest
      | .error e => .error e

/-- The post-scan sanitization of `process_compute_budget_instructions`
(`src/sdk/src/fee.rs` lines 253-276). -/
def cbLimits (st : CBState) : ComputeBudgetLimits :=
  { updatedHeapBytes :=
      min (st.requestedHeapSize.getD HEAP_LENGTH) MAX_HEAP_FRAME_BYTES
    computeUnitLimit :=
      min (st.updatedComputeUnitLimit.getD
            (satMulU32 st.numNonComputeBudgetInstructions
              DEFAULT_INSTRUCTION_COMPUTE_UNIT_LIMIT))
        MAX_COMPUTE_UNIT_LIMIT
    computeUnitPrice := st.updatedComputeUnitPrice.getD 0
    loadedAccountsBytes :=
      min (st.updatedLoadedAccountsDataSizeLimit.getD
            MAX_LOADED_ACCOUNTS_DATA_SIZE_BYTES)
        MAX_LOADED_ACCOUNTS_DATA_SIZE_BYTES }

/-- Rust `process_compute_budget_instructions` from `src/sdk/src/fee.rs` lines
198-277 (also the processor consulted by `src/fee/src/lib.rs` and by
`ImmutableDeserializedPacket::new`). -/
def process_compute_budget_instructions (instructions : List Instr) :
    Except TxErr ComputeBudgetLimits :=
  (cbScan 0 CBState.init instructions).map cbLimits

/-! ### `FeeDetails` and the sdk fee calculator (`src/sdk/src/fee.rs`) -/

/-- Rust `FeeDetails` from `src/sdk/src/fee.rs` lines 454-459. -/
structure FeeDetails where
  transaction_fee : Nat
  prioritization_fee : Nat
  remove_rounding_in_fee_calculation : Bool
deriving DecidableEq, Repr

/-- Rust `FeeDetails::default()`: all fields at their `Default` values. -/
def FeeDetails.mkDefault : FeeDetails := ⟨0, 0, false⟩

/-- Rust `FeeDetails::total_fee` from `src/sdk/src/fee.rs` lines 475-483.
`roundF64` abstracts the `(x as f64).round() as u64` round trip taken on the
legacy (rounding) branch; the `remove_rounding_in_fee_calculation` branch
does not use it. Note the source reads only `self.transaction_fee` into its
local `total_fee`; `self.prioritization_fee` is never added. -/
def FeeDetails.total_fee (roundF64 : Nat → Nat) (fd : FeeDetails) : Nat :=
  let total_fee := fd.transaction_fee
  if fd.remove_rounding_in_fee_calculation then
    total_fee
  else
    roundF64 total_fee

/-- The fields of `UsageCostDetails` written by the embedded functions
(`src/sdk/src/fee.rs` lines 370-383); the signature- and write-lock-cost
fields are not modelled because no embedded claim reads them and
`calculate_fee_details` discards them. -/
structure UsageCostDetails where
  builtins_execution_cost : Nat
  bpf_execution_cost : Nat
  loaded_accounts_data_size_cost : Nat
  data_bytes_cost : Nat
  compute_unit_price : Nat
deriving DecidableEq, Repr

/-- Rust `UsageCostDetails::default()` restricted to the modelled fields. -/
def UsageCostDetails.mkDefault : UsageCostDetails := ⟨0, 0, 0, 0, 0⟩

/-- Rust `INSTRUCTION_DATA_BYTES_COST = 140 / COMPUTE_UNIT_TO_US_RATIO = 4`. -/
def INSTRUCTION_DATA_BYTES_COST : Nat := 140 / 30

/-- Rust `DEFAULT_HEAP_COST = 8`. -/
def DEFAULT_HEAP_COST : Nat := 8

/-- Rust `ACCOUNT_DATA_COST_PAGE_SIZE = 32 * 1024`. -/
def ACCOUNT_DATA_COST_PAGE_SIZE : Nat := 32 * 1024

/-- Rust `FeeStructure::calculate_memory_usage_cost` from `src/sdk/src/fee.rs`
lines 537-545. -/
def calculate_memory_usage_cost
    (loaded_accounts_data_size_limit heap_cost : Nat) : Nat :=
  satMulU64
    (satAddU64 loaded_accounts_data_size_limit
        (ACCOUNT_DATA_COST_PAGE_SIZE - 1) /
      ACCOUNT_DATA_COST_PAGE_SIZE)
    heap_cost

/-- The loop accumulator of the sdk `get_transaction_cost`
(`src/sdk/src/fee.rs` lines 302-327). -/
structure SdkCostAcc where
  builtin_costs : Nat
  bpf_costs : Nat
  data_bytes_len_total : Nat
  compute_unit_limit_is_set : Bool
deriving DecidableEq, Repr

/-- One iteration of the instruction loop of the sdk `get_transaction_cost`
(`src/sdk/src/fee.rs` lines 308-327). -/
def sdkCostStep (acc : SdkCostAcc) (ins : Instr) : SdkCostAcc :=
  let acc :=
    match BUILT_IN_INSTRUCTION_COSTS ins.programId with
    | some builtin_cost =>
        { acc with builtin_costs := satAddU64 acc.builtin_costs builtin_cost }
    | none =>
        { acc with bpf_costs :=
            (min (satAddU64 acc.bpf_costs DEFAULT_INSTRUCTION_COMPUTE_UNIT_LIMIT)
              MAX_COMPUTE_UNIT_LIMIT) }
  let acc :=
    { acc with data_bytes_len_total :=
        (satAddU64 acc.data_bytes_len_total ins.dataLen) }
  if ins.programId = Pid.computeBudget then
    match ins.parse with
    | some (.setComputeUnitLimit _) =>
        { acc with compute_unit_limit_is_set := true }
    | _ => acc
  else acc

/-- Rust `get_transaction_cost` from `src/sdk/src/fee.rs` lines 297-364, writing
into `tx_cost`. `featureLoadedAccountsActive` is
`feature_set.is_active(include_loaded_accounts_data_size_in_fee_calculation)`. -/
def sdk_get_transaction_cost (featureLoadedAccountsActive : Bool)
    (tx_cost : UsageCostDetails) (message : Message) : UsageCostDetails :=
  let acc := message.instrs.foldl sdkCostStep ⟨0, 0, 0, false⟩
  let res :=
    match process_compute_budget_instructions message.instrs with
    | .ok compute_budget_limits =>
        let bpf_costs :=
          if acc.bpf_costs > 0 ∧ acc.compute_unit_limit_is_set = true then
            compute_budget_limits.computeUnitLimit
          else acc.bpf_costs
        let loaded_cost :=
          if featureLoadedAccountsActive then
            calculate_memory_usage_cost compute_budget_limits.loadedAccountsBytes
              DEFAULT_HEAP_COST
          else 0
        (acc.builtin_costs, bpf_costs, loaded_cost)
    | .error _ => (0, 0, 0)
  { tx_cost with
    builtins_execution_cost := res.1
    bpf_execution_cost := res.2.1
    loaded_accounts_data_size_cost := res.2.2
    data_bytes_cost := acc.data_bytes_len_total / INSTRUCTION_DATA_BYTES_COST }

/-- Rust `get_compute_unit_price_from_message` from `src/sdk/src/fee.rs` lines
279-294: the last decodable `SetComputeUnitPrice` on the compute-budget
program id wins. -/
def get_compute_unit_price_from_message (tx_cost : UsageCostDetails)
    (message : Message) : UsageCostDetails :=
  message.instrs.foldl
    (fun tx_cost ins =>
      if ins.programId = Pid.computeBudget then
        match ins.parse with
        | some (.setComputeUnitPrice price) =>
            { tx_cost with compute_unit_price := price }
        | _ => tx_cost
      else tx_cost)
    tx_cost

/-- Rust `FeeStructure::calculate_fee_details` from `src/sdk/src/fee.rs` lines
569-617. Only the consumed inputs are parameters: the message, the
`lamports_per_signature` argument, `budget_limits.prioritization_fee` and
the `remove_rounding_in_fee_calculation` flag (`self` and the
`_include_loaded_account_data_size_in_fee` flag are unused by the source).
The re-binding of `tx_cost` to the default value mirrors source line 599. -/
def FeeStructure.calculate_fee_details (message : Message)
    (lamports_per_signature : Nat) (budget_limits_prioritization_fee : Nat)
    (remove_rounding_in_fee_calculation : Bool) : FeeDetails :=
  if lamports_per_signature = 0 then FeeDetails.mkDefault
  else if message.accountKeys.any (fun key => key = Pid.vote) then
    FeeDetails.mkDefault
  else
    let tx_cost := UsageCostDetails.mkDefault
    let tx_cost := sdk_get_transaction_cost false tx_cost message
    let tx_cost := get_compute_unit_price_from_message tx_cost message
    let tx_cost := UsageCostDetails.mkDefault
    let derived_cu :=
      satAddU64 tx_cost.builtins_execution_cost tx_cost.bpf_execution_cost
    let adjusted_cu_price :=
      if derived_cu < 1000 ∧ tx_cost.compute_unit_price < 1000000 then
        1000000
      else tx_cost.compute_unit_price
    let base_fee :=
      satAddU64 (satMulU64 derived_cu 10)
        (satMulU64 derived_cu adjusted_cu_price / 1000000)
    { transaction_fee := base_fee
      prioritization_fee := budget_limits_prioritization_fee
      remove_rounding_in_fee_calculation := remove_rounding_in_fee_calculation }

/-! ### The fee crate (`src/fee/src/lib.rs`) -/

/-- Rust `solana_fee_structure::FeeDetails` as consumed by `src/fee/src/lib.rs`:
an external type holding the transaction fee and the prioritization fee.
`FeeDetails::new(a, b)` is the constructor, `FeeDetails::default()` is zero
in both fields. -/
structure ExtFeeDetails where
  transaction_fee : Nat
  prioritization_fee : Nat
deriving DecidableEq, Repr

/-- Rust `solana_fee_structure::FeeDetails::default()`. -/
def ExtFeeDetails.mkDefault : ExtFeeDetails := ⟨0, 0⟩

/-- Rust `BASE_FEE_MULTIPLIER = 10` (`src/fee/src/lib.rs` line 19). -/
def BASE_FEE_MULTIPLIER : Nat := 10

/-- The loop accumulator of the fee crate's `get_transaction_cost`
(`src/fee/src/lib.rs` lines 84-112). -/
structure FeeCostAcc where
  builtin_costs : Nat
  bpf_costs : Nat
  compute_unit_limit_is_set : Bool
deriving DecidableEq, Repr

/-- One iteration of the instruction loop of the fee crate's
`get_transaction_cost` (`src/fee/src/lib.rs` lines 87-112). `bc` models the
external `get_builtin_instruction_cost(program_id, feature_set)` lookup at
the ambient feature set. -/
def feeCostStep (bc : Pid → Option Nat) (acc : FeeCostAcc) (ins : Instr) :
    FeeCostAcc :=
  let acc :=
    match bc ins.programId with
    | some builtin_cost =>
        { acc with builtin_costs := satAddU64 acc.builtin_costs builtin_cost }
    | none =>
        { acc with bpf_costs :=
            (min (satAddU64 acc.bpf_costs DEFAULT_INSTRUCTION_COMPUTE_UNIT_LIMIT)
              MAX_COMPUTE_UNIT_LIMIT) }
  if ins.programId = Pid.computeBudget then
    match ins.parse with
    | some (.setComputeUnitLimit _) =>
        { acc with compute_unit_limit_is_set := true }
    | _ => acc
  else acc

/-- Rust `get_transaction_cost` from `src/fee/src/lib.rs` lines 83-141. The
compute-budget processor it consults (an external crate in this source
file's imports) is modelled by the repository's own
`process_compute_budget_instructions` from `src/sdk/src/fee.rs`, which
implements the same scan. -/
def FeeLib.get_transaction_cost (bc : Pid → Option Nat) (message : Message) :
    Nat :=
  let acc := message.instrs.foldl (feeCostStep bc) ⟨0, 0, false⟩
  let bpf_costs :=
    match process_compute_budget_instructions message.instrs with
    | .ok compute_budget_limits =>
        if acc.bpf_costs > 0 ∧ acc.compute_unit_limit_is_set = true then
          compute_budget_limits.computeUnitLimit
        else acc.bpf_costs
    | .error _ => acc.bpf_costs
  satAddU64 acc.builtin_costs bpf_costs

/-- Rust `is_vote_transaction` from `src/fee/src/lib.rs` lines 75-81. -/
def is_vote_transaction (message : Message) : Bool :=
  message.accountKeys.any (fun key => key = Pid.vote)

/-- Rust `calculate_fee_details` from `src/fee/src/lib.rs` lines 40-73. The
`_lamports_per_signature` argument is kept to mirror the source signature. -/
def FeeLib.calculate_fee_details (bc : Pid → Option Nat) (message : Message)
    (zero_fees_for_test : Bool) (lamports_per_signature : Nat)
    (prioritization_fee : Nat) : ExtFeeDetails :=
  if zero_fees_for_test then ExtFeeDetails.mkDefault
  else if is_vote_transaction message then ExtFeeDetails.mkDefault
  else
    let compute_units_derived := FeeLib.get_transaction_cost bc message
    let base_fee := satMulU64 compute_units_derived BASE_FEE_MULTIPLIER
    { transaction_fee := base_fee, prioritization_fee := prioritization_fee }

/-- Rust `calculate_fee` from `src/fee/src/lib.rs` lines 23-38; `totalFeeExt`
models the external `FeeDetails::total_fee`. -/
def FeeLib.calculate_fee (bc : Pid → Option Nat)
    (totalFeeExt : ExtFeeDetails → Nat) (message : Message)
    (zero_fees_for_test : Bool) (lamports_per_signature : Nat)
    (prioritization_fee : Nat) : Nat :=
  totalFeeExt
    (FeeLib.calculate_fee_details bc message zero_fees_for_test
      lamports_per_signature prioritization_fee)

/-! ### Packet intake
(`src/core/src/banking_stage/immutable_deserialized_packet.rs`) -/

/-- Rust `DeserializedPacketError` from
`src/core/src/banking_stage/immutable_deserialized_packet.rs` lines 28-45
(the variants reachable from the embedded functions). -/
inductive DeserializedPacketError where
  | ShortVecError
  | DeserializationError
  | SignatureOverflowed (sigSize : Nat)
  | SanitizeError
  | PrioritizationFailure
deriving DecidableEq, Repr

/-- A `Packet` as observed by `packet_message`: the byte buffer
`data[..meta.size]` and the `discard` metadata flag (when set,
`Packet::data` returns `None` for every range). -/
structure Packet where
  buffer : List Nat
  discard : Bool
deriving DecidableEq, Repr

/-- Rust `packet.data(..)`. -/
def Packet.dataFull (p : Packet) : Option (List Nat) :=
  if p.discard then none else some p.buffer

/-- Rust `packet.data(start..)`: `None` when the packet is discarded or the range
start exceeds the packet size. -/
def Packet.dataFrom (p : Packet) (start : Nat) : Option (List Nat) :=
  if p.discard then none
  else if start ≤ p.buffer.length then some (p.buffer.drop start)
  else none

/-- Rust `usize::checked_mul` (64-bit target). -/
def checkedMulUsize (a b : Nat) : Option Nat :=
  if a * b ≤ USIZE_MAX then some (a * b) else none

/-- Rust `usize::checked_add` (64-bit target). -/
def checkedAddUsize (a b : Nat) : Option Nat :=
  if a + b ≤ USIZE_MAX then some (a + b) else none

/-- Rust `size_of::<Signature>() = 64`. -/
def SIZE_OF_SIGNATURE : Nat := 64

/-- Rust `packet_message` from
`src/core/src/banking_stage/immutable_deserialized_packet.rs` lines
194-205. `dec` models the external `decode_shortu16_len` varint decoder
(`Ok (sig_len, sig_size)` becomes `some`, its error becomes `none`). -/
def packet_message (dec : List Nat → Option (Nat × Nat)) (packet : Packet) :
    Except DeserializedPacketError (List Nat) :=
  match packet.dataFull.bind dec with
  | none => .error .ShortVecError
  | some (sig_len, sig_size) =>
      match (checkedMulUsize sig_len SIZE_OF_SIGNATURE).bind
          (fun v => checkedAddUsize v sig_size) with
      | none => .error (.SignatureOverflowed sig_size)
      | some msg_start =>
          match packet.dataFrom msg_start with
          | none => .error (.SignatureOverflowed sig_size)
          | some bytes => .ok bytes

/-- A `SanitizedVersionedTransaction` as observed here: its message (account
keys and `program_instructions_iter` stream). -/
structure SVTransaction where
  message : Message
deriving DecidableEq, Repr

/-- The inputs of `ImmutableDeserializedPacket::new` together with the
outcomes of the two external decoding stages it begins with:
`deserializeOk` is the success of `packet.deserialize_slice(..)` and
`sanitizeResult` the result of `SanitizedVersionedTransaction::try_from`
(`none` models its `Err`). `isSimpleVoteMeta` is
`packet.meta().is_simple_vote_tx()`. -/
structure PacketIntake where
  packet : Packet
  isSimpleVoteMeta : Bool
  deserializeOk : Bool
  sanitizeResult : Option SVTransaction
deriving DecidableEq, Repr

/-- Rust `ImmutableDeserializedPacket` from
`src/core/src/banking_stage/immutable_deserialized_packet.rs` lines 53-61.
The stored `message_hash` is `Message::hash_raw_message` of the message
bytes, an injective-by-intent external digest; the pre-image bytes are
stored in its place. -/
structure ImmutableDeserializedPacket where
  original_packet : Packet
  transaction : SVTransaction
  message_bytes : List Nat
  is_simple_vote : Bool
  compute_unit_price : Nat
  compute_unit_limit : Nat
deriving DecidableEq, Repr

/-- Rust `ImmutableDeserializedPacket::new` from
`src/core/src/banking_stage/immutable_deserialized_packet.rs` lines 64-98.
`dec` models `decode_shortu16_len` as in `packet_message`. -/
def ImmutableDeserializedPacket.new (dec : List Nat → Option (Nat × Nat))
    (intake : PacketIntake) :
    Except DeserializedPacketError ImmutableDeserializedPacket :=
  if intake.deserializeOk = false then .error .DeserializationError
  else
    match intake.sanitizeResult with
    | none => .error .SanitizeError
    | some sanitized_transaction =>
        match packet_message dec intake.packet with
        | .error e => .error e
        | .ok message_bytes =>
            let is_simple_vote := intake.isSimpleVoteMeta
            match process_compute_budget_instructions
                sanitized_transaction.message.instrs with
            | .error _ => .error .PrioritizationFailure
            | .ok limits =>
                let compute_unit_price := limits.computeUnitPrice
                let compute_unit_price :=
                  if is_simple_vote then 0 else compute_unit_price
                .ok { original_packet := intake.packet
                      transaction := sanitized_transaction
                      message_bytes := message_bytes
                      is_simple_vote := is_simple_vote
                      compute_unit_price := compute_unit_price
                      compute_unit_limit := limits.computeUnitLimit }

/-- Rust `PartialEq for ImmutableDeserializedPacket`
(`immutable_deserialized_packet.rs` lines 176-180): equality on
`compute_unit_price` alone. -/
def ImmutableDeserializedPacket.beq
    (a b : ImmutableDeserializedPacket) : Bool :=
  a.compute_unit_price == b.compute_unit_price

/-- Rust `Ord for ImmutableDeserializedPacket`
(`immutable_deserialized_packet.rs` lines 188-192): comparison on
`compute_unit_price` alone (`PartialOrd` delegates to it). -/
def ImmutableDeserializedPacket.cmp
    (a b : ImmutableDeserializedPacket) : Ordering :=
  compare a.compute_unit_price b.compute_unit_price

/-! ### Claim-side definitions

Quantities the claims speak about, defined independently of the operational
one-pass scans above so that the theorems relate two genuinely different
formulations. -/

/-- The four compute-budget directive kinds. -/
inductive CBKind where
  | heapFrame
  | unitLimit
  | unitPrice
  | loadedLimit
deriving DecidableEq, Repr

/-- The kind of a decoded compute-budget directive. -/
def CBInstr.kind : CBInstr → CBKind
  | .requestHeapFrame _ => .heapFrame
  | .setComputeUnitLimit _ => .unitLimit
  | .setComputeUnitPrice _ => .unitPrice
  | .setLoadedAccountsDataSizeLimit _ => .loadedLimit

/-- The payload of a decoded compute-budget directive. -/
def CBInstr.value : CBInstr → Nat
  | .requestHeapFrame bytes => bytes
  | .setComputeUnitLimit units => units
  | .setComputeUnitPrice microLamports => microLamports
  | .setLoadedAccountsDataSizeLimit bytes => bytes

/-- The compute-budget directive carried by an instruction: its decoded
payload when the instruction is on the compute-budget program id. -/
def Instr.directive (ins : Instr) : Option CBInstr :=
  if ins.programId = Pid.computeBudget then ins.parse else none

/-- The payload of the first directive of kind `k` in the stream. -/
def firstDirectiveValue (l : List Instr) (k : CBKind) : Option Nat :=
  l.findSome? fun ins =>
    match ins.directive with
    | some c => if c.kind = k then some c.value else none
    | none => none

/-- The number of instructions not on the compute-budget program id. -/
def countNonCB (l : List Instr) : Nat :=
  l.countP fun ins => decide (ins.programId ≠ Pid.computeBudget)

/-- Whether the scan state has already recorded a directive of kind `k`. -/
def kindSeen (st : CBState) : CBKind → Bool
  | .heapFrame => st.requestedHeapSize.isSome
  | .unitLimit => st.updatedComputeUnitLimit.isSome
  | .unitPrice => st.updatedComputeUnitPrice.isSome
  | .loadedLimit => st.updatedLoadedAccountsDataSizeLimit.isSome

/-- Claim-side builtin cost: the saturating sum of the table cost of every
builtin instruction in the stream. -/
def builtinCostSum (bc : Pid → Option Nat) (l : List Instr) : Nat :=
  l.foldl
    (fun total ins =>
      match bc ins.programId with
      | some c => satAddU64 total c
      | none => total)
    0

/-- Claim-side non-builtin cost: 200,000 accrued per non-builtin
instruction, capped cumulatively at 1,400,000. -/
def bpfAccrued (bc : Pid → Option Nat) (l : List Instr) : Nat :=
  l.foldl
    (fun total ins =>
      match bc ins.programId with
      | some _ => total
      | none => min (satAddU64 total 200000) 1400000)
    0

/-- Whether the stream holds an explicit set-compute-unit-limit directive on
the compute-budget program id. -/
def hasSetComputeUnitLimit (l : List Instr) : Bool :=
  l.any fun ins =>
    decide (ins.programId = Pid.computeBudget) &&
      match ins.parse with
      | some (.setComputeUnitLimit _) => true
      | _ => false

/-- The compute units the sdk cost model derives for a message: the
builtin-plus-bpf execution cost computed by the sdk `get_transaction_cost`
(before `calculate_fee_details` discards it). -/
def derivedComputeUnits (message : Message) : Nat :=
  let u := sdk_get_transaction_cost false UsageCostDetails.mkDefault message
  satAddU64 u.builtins_execution_cost u.bpf_execution_cost

/-- The requested compute-unit price of a message, as extracted by the sdk
`get_compute_unit_price_from_message`. -/
def requestedComputeUnitPrice (message : Message) : Nat :=
  (get_compute_unit_price_from_message UsageCostDetails.mkDefault
    message).compute_unit_price

/-- The transaction fee claim C2 ascribes to
`FeeStructure::calculate_fee_details`: derived compute units times 10 plus
derived units times the effective price over 1,000,000 (truncating), the
price floored to 1,000,000 when the derived units are below 1000 and the
requested price is below 1,000,000. -/
def claimedSdkTransactionFee (message : Message) : Nat :=
  let cu := derivedComputeUnits message
  let rp := requestedComputeUnitPrice message
  let eff := if cu < 1000 ∧ rp < 1000000 then 1000000 else rp
  satAddU64 (satMulU64 cu 10) (satMulU64 cu eff / 1000000)

/-! ### Concrete fixtures used by the claim theorems and witnesses -/

/-- The instruction stream refuting C3 as stated: a compute-unit-limit
directive at position 0, 255 ordinary instructions, and a second
compute-unit-limit directive at position 256. -/
def c3Stream : List Instr :=
  ⟨Pid.computeBudget, some (.setComputeUnitLimit 1), 5⟩ ::
    (List.replicate 255 ⟨Pid.other 0, none, 0⟩ ++
      [⟨Pid.computeBudget, some (.setComputeUnitLimit 2), 5⟩])

/-- A non-vote message with one non-builtin instruction: the input on which
C2 fails. -/
def c2Message : Message := ⟨[Pid.other 1], [⟨Pid.other 2, none, 0⟩]⟩

/-- The concrete stream for the C4 witness: one directive of each kind plus
an ordinary instruction. -/
def c4Stream : List Instr :=
  [⟨Pid.computeBudget, some (.requestHeapFrame 40960), 5⟩,
   ⟨Pid.computeBudget, some (.setComputeUnitLimit 3000000000), 5⟩,
   ⟨Pid.computeBudget, some (.setComputeUnitPrice 5), 9⟩,
   ⟨Pid.computeBudget, some (.setLoadedAccountsDataSizeLimit 123), 5⟩,
   ⟨Pid.other 0, none, 7⟩]

/-- A message referencing the vote program id, for the C6 witness. -/
def c6Message : Message := ⟨[Pid.other 7, Pid.vote], [⟨Pid.other 1, none, 3⟩]⟩

/-- A varint decoder stub reporting one signature and a 1-byte prefix, for
the C6 and C8 witnesses. -/
def c6Dec : List Nat → Option (Nat × Nat) := fun _ => some (1, 1)

/-- A vote-marked packet intake carrying an embedded price directive of 42,
for the C6 witness. -/
def c6Intake : PacketIntake :=
  { packet := ⟨List.replicate 65 0, false⟩
    isSimpleVoteMeta := true
    deserializeOk := true
    sanitizeResult := some ⟨⟨[Pid.other 7],
      [⟨Pid.computeBudget, some (.setComputeUnitPrice 42), 9⟩]⟩⟩ }

/-- The packet `ImmutableDeserializedPacket::new` builds from `c6Intake`:
the stored price is forced to 0 despite the embedded directive of 42. -/
def c6Packet : ImmutableDeserializedPacket :=
  { original_packet := ⟨List.replicate 65 0, false⟩
    transaction := ⟨⟨[Pid.other 7],
      [⟨Pid.computeBudget, some (.setComputeUnitPrice 42), 9⟩]⟩⟩
    message_bytes := []
    is_simple_vote := true
    compute_unit_price := 0
    compute_unit_limit := 0 }

end Tachyon

/-- Decidable equality for `Except`, so that concrete runs of the embedded
fallible functions can be settled by `decide`. -/
instance exceptDecEq {ε α : Type} [DecidableEq ε] [DecidableEq α] :
    DecidableEq (Except ε α) := fun a b =>
  match a, b with
  | .ok x, .ok y =>
      if h : x = y then .isTrue (by rw [h]) else
        .isFalse (by intro hc; cases hc; exact h rfl)
  | .error x, .error y =>
      if h : x = y then .isTrue (by rw [h]) else
        .isFalse (by intro hc; cases hc; exact h rfl)
  | .ok _, .error _ => .isFalse (by intro hc; cases hc)
  | .error _, .ok _ => .isFalse (by intro hc; cases hc)

namespace Tachyon

example :
    process_compute_budget_instructions [] =
      .ok ⟨32768, 0, 0, 67108864⟩ := by decide

example :
    process_compute_budget_instructions
      [⟨.computeBudget, some (.setComputeUnitLimit 5), 5⟩,
       ⟨.other 0, none, 0⟩] =
      .ok ⟨32768, 5, 0, 67108864⟩ := by decide

example :
    process_compute_budget_instructions
      [⟨.other 0, none, 0⟩,
       ⟨.computeBudget, some (.setComputeUnitPrice 7), 9⟩,
       ⟨.computeBudget, some (.setComputeUnitPrice 9), 9⟩] =
      .error (.DuplicateInstruction 2) := by decide

end Tachyon

namespace Tachyon

/-! ### Scan lemmas -/

/-- Equation lemma: the scan of the empty stream. -/
theorem cbScan_nil (i : Nat) (st : CBState) : cbScan i st [] = .ok st := rfl

/-- Equation lemma: one scan step. -/
theorem cbScan_cons (i : Nat) (st : CBState) (x : Instr) (xs : List Instr) :
    cbScan i st (x :: xs) =
      match cbStep i st x with
      | .ok st' => cbScan (i + 1) st' xs
      | .error e => .error e := rfl

/-- A scan that succeeds on a prefix continues on an appended suffix from
the reached state and index. -/
theorem cbScan_append (p : List Instr) :
    ∀ (i : Nat) (st st' : CBState), cbScan i st p = .ok st' →
      ∀ l, cbScan i st (p ++ l) = cbScan (i + p.length) st' l := by
  induction p with
  | nil =>
      intro i st st' h l
      rw [cbScan_nil] at h
      cases h
      simp
  | cons x xs ih =>
      intro i st st' h l
      rw [cbScan_cons] at h
      rw [List.cons_append, cbScan_cons]
      cases hstep : cbStep i st x with
      | ok st'' =>
          rw [hstep] at h
          simp only
          rw [ih (i + 1) st'' st' h l]
          congr 1
          simp
          omega
      | error e =>
          rw [hstep] at h
          cases h

/-- A step on a compute-budget directive whose kind the state has already
recorded yields `DuplicateInstruction` at the `u8`-truncated index. -/
theorem cbStep_duplicate (i : Nat) (st : CBState) (x : Instr) (c : CBInstr)
    (hpid : x.programId = Pid.computeBudget) (hparse : x.parse = some c)
    (hseen : kindSeen st c.kind = true) :
    cbStep i st x = .error (.DuplicateInstruction (i % 256)) := by
  cases c with
  | requestHeapFrame b =>
      simp only [kindSeen, CBInstr.kind] at hseen
      simp [cbStep, hpid, hparse, hseen]
  | setComputeUnitLimit v =>
      simp only [kindSeen, CBInstr.kind] at hseen
      simp [cbStep, hpid, hparse, hseen]
  | setComputeUnitPrice v =>
      simp only [kindSeen, CBInstr.kind] at hseen
      simp [cbStep, hpid, hparse, hseen]
  | setLoadedAccountsDataSizeLimit v =>
      simp only [kindSeen, CBInstr.kind] at hseen
      simp [cbStep, hpid, hparse, hseen]

/-- C3 (amended): a second directive of an already-seen kind at position `i`
stops the scan with `DuplicateInstruction` carrying the `u8`-truncated
index `i % 256`, whatever follows it; the prefix before it is scanned left
to right and must itself be error-free. -/
theorem claim_C3_duplicate_directive (p rest : List Instr) (x : Instr)
    (st : CBState) (c : CBInstr)
    (hscan : cbScan 0 CBState.init p = .ok st)
    (hpid : x.programId = Pid.computeBudget)
    (hparse : x.parse = some c)
    (hseen : kindSeen st c.kind = true) :
    process_compute_budget_instructions (p ++ x :: rest) =
      .error (.DuplicateInstruction (p.length % 256)) := by
  unfold process_compute_budget_instructions
  rw [cbScan_append p 0 CBState.init st hscan (x :: rest), Nat.zero_add,
    cbScan_cons, cbStep_duplicate p.length st x c hpid hparse hseen]
  rfl

/-- Witness for C3: a stream with two price directives, the second at
position 1; the scan of the prefix reaches the state recording the first,
and the processor reports `DuplicateInstruction(1)`. -/
theorem claim_C3_duplicate_directive_witness :
    cbScan 0 CBState.init [⟨Pid.computeBudget, some (.setComputeUnitPrice 3), 9⟩] =
      .ok ⟨0, none, some 3, none, none⟩ ∧
    (⟨Pid.computeBudget, some (.setComputeUnitPrice 5), 9⟩ : Instr).programId =
      Pid.computeBudget ∧
    kindSeen ⟨0, none, some 3, none, none⟩ (CBInstr.setComputeUnitPrice 5).kind = true ∧
    process_compute_budget_instructions
      [⟨Pid.computeBudget, some (.setComputeUnitPrice 3), 9⟩,
       ⟨Pid.computeBudget, some (.setComputeUnitPrice 5), 9⟩] =
      .error (.DuplicateInstruction 1) :=
  ⟨by decide, by decide, by decide,
    claim_C3_duplicate_directive
      [⟨Pid.computeBudget, some (.setComputeUnitPrice 3), 9⟩] []
      ⟨Pid.computeBudget, some (.setComputeUnitPrice 5), 9⟩
      ⟨0, none, some 3, none, none⟩ (CBInstr.setComputeUnitPrice 5)
      (by decide) (by decide) (by decide) (by decide)⟩

set_option maxRecDepth 8192 in
/-- Counterexample to C3 as stated: the duplicate directive sits at
position 256, but the error carries index 0 (`256 as u8`), not 256. -/
theorem claim_C3_counterexample :
    process_compute_budget_instructions c3Stream =
      .error (.DuplicateInstruction 0) ∧
    process_compute_budget_instructions c3Stream ≠
      .error (.DuplicateInstruction 256) := by
  constructor
  · decide
  · decide

end Tachyon

namespace Tachyon

/-! ### Claims C1, C2, C9, C10 -/

/-- C1 fails on the code: `FeeDetails::total_fee` reads only
`transaction_fee` and never adds `prioritization_fee`. At the input of the
repository's own `test_total_fee_rounding` (`transaction_fee = u64::MAX -
11`, `prioritization_fee = 1`, no-rounding policy), the code yields
`u64::MAX - 11` while the claim (and that test) require the saturating sum
`u64::MAX - 10`. -/
theorem claim_C1_total_fee_drops_prioritization :
    FeeDetails.total_fee id ⟨U64_MAX - 11, 1, true⟩ = U64_MAX - 11 ∧
    satAddU64 (U64_MAX - 11) 1 = U64_MAX - 10 ∧
    U64_MAX - 11 ≠ U64_MAX - 10 :=
  ⟨rfl, by decide, by decide⟩

/-- C2 fails on the code: `FeeStructure::calculate_fee_details` re-binds
`tx_cost` to `UsageCostDetails::default()` (line 599) after deriving the
costs, so the returned transaction fee is 0, while the cost model derives
200,000 compute units for `c2Message` and the claimed formula prices them
at 2,000,000. -/
theorem claim_C2_shadowed_cost_zero_fee :
    (FeeStructure.calculate_fee_details c2Message 1 0 true).transaction_fee = 0 ∧
    derivedComputeUnits c2Message = 200000 ∧
    claimedSdkTransactionFee c2Message = 2000000 ∧
    (0 : Nat) ≠ 2000000 :=
  ⟨by decide, by decide, by decide, by decide⟩

/-- C9: whenever `lamports_per_signature` is 0, the sdk
`calculate_fee_details` returns all-zero `FeeDetails` (the `Default`
value), for every message — vote or not, whatever the derived cost, the
requested price, the prioritization-fee argument and the rounding flag. -/
theorem claim_C9_zero_lamports_per_signature (message : Message)
    (prioritization_fee : Nat) (remove_rounding : Bool) :
    FeeStructure.calculate_fee_details message 0 prioritization_fee
      remove_rounding = ⟨0, 0, false⟩ := rfl

/-- C10: the fee crate's `calculate_fee_details` is independent of its
`lamports_per_signature` argument: any two values give identical
`FeeDetails`, for every builtin-cost table (feature set), message,
zero-fees flag and prioritization fee. -/
theorem claim_C10_lamports_per_signature_independent
    (bc : Pid → Option Nat) (message : Message) (zero_fees_for_test : Bool)
    (a b prioritization_fee : Nat) :
    FeeLib.calculate_fee_details bc message zero_fees_for_test a
        prioritization_fee =
      FeeLib.calculate_fee_details bc message zero_fees_for_test b
        prioritization_fee := rfl

/-! ### Claim C7: packet ordering -/

/-- C7: the packet ordering is a total order determined by
`compute_unit_price` alone: equality holds exactly on equal prices, `cmp`
is exactly the comparison of the two prices, equality agrees with `cmp`
returning `eq`, the order is antisymmetric and transitive — regardless of
every other field of the two packets. -/
theorem claim_C7_order_by_price_alone
    (a b c : ImmutableDeserializedPacket) :
    (a.beq b = true ↔ a.compute_unit_price = b.compute_unit_price) ∧
    (a.cmp b = compare a.compute_unit_price b.compute_unit_price) ∧
    (a.beq b = true ↔ a.cmp b = Ordering.eq) ∧
    (a.cmp b = Ordering.lt ↔ b.cmp a = Ordering.gt) ∧
    (a.cmp b = Ordering.lt → b.cmp c = Ordering.lt →
      a.cmp c = Ordering.lt) := by
  refine ⟨?_, rfl, ?_, ?_, ?_⟩
  · simp [ImmutableDeserializedPacket.beq]
  · simp [ImmutableDeserializedPacket.beq, ImmutableDeserializedPacket.cmp,
      Nat.compare_eq_eq]
  · simp only [ImmutableDeserializedPacket.cmp, Nat.compare_eq_lt,
      Nat.compare_eq_gt]
  · simp only [ImmutableDeserializedPacket.cmp, Nat.compare_eq_lt]
    omega

/-- Witness for C7 at two concrete packets differing in every field but
carrying prices 1, 1 and 2: the conjuncts evaluate as stated. -/
theorem claim_C7_order_by_price_alone_witness :
    ((⟨⟨[1], false⟩, ⟨⟨[], []⟩⟩, [1], true, 1, 5⟩ :
        ImmutableDeserializedPacket).beq
      ⟨⟨[2, 3], true⟩, ⟨⟨[Pid.vote], []⟩⟩, [], false, 1, 9⟩ = true) ∧
    ((⟨⟨[1], false⟩, ⟨⟨[], []⟩⟩, [1], true, 1, 5⟩ :
        ImmutableDeserializedPacket).cmp
      ⟨⟨[], false⟩, ⟨⟨[], []⟩⟩, [], false, 2, 0⟩ = Ordering.lt) := by
  have h := claim_C7_order_by_price_alone
    ⟨⟨[1], false⟩, ⟨⟨[], []⟩⟩, [1], true, 1, 5⟩
    ⟨⟨[2, 3], true⟩, ⟨⟨[Pid.vote], []⟩⟩, [], false, 1, 9⟩
    ⟨⟨[], false⟩, ⟨⟨[], []⟩⟩, [], false, 2, 0⟩
  exact ⟨h.1.mpr (by decide), by decide⟩

end Tachyon

namespace Tachyon

/-! ### Claim C4: invariants of accepted compute-budget limits -/

/-- Rust `firstDirectiveValue` skips a non-compute-budget instruction. -/
theorem firstDirectiveValue_cons_nonCB {x : Instr} (xs : List Instr)
    (k : CBKind) (hpid : ¬ x.programId = Pid.computeBudget) :
    firstDirectiveValue (x :: xs) k = firstDirectiveValue xs k := by
  simp [firstDirectiveValue, List.findSome?_cons, Instr.directive, hpid]

/-- Rust `firstDirectiveValue` returns the payload of a matching head. -/
theorem firstDirectiveValue_cons_hit {x : Instr} (xs : List Instr)
    {c : CBInstr} (k : CBKind) (hpid : x.programId = Pid.computeBudget)
    (hparse : x.parse = some c) (hk : c.kind = k) :
    firstDirectiveValue (x :: xs) k = some c.value := by
  simp [firstDirectiveValue, List.findSome?_cons, Instr.directive, hpid,
    hparse, hk]

/-- Rust `firstDirectiveValue` skips a directive of a different kind. -/
theorem firstDirectiveValue_cons_miss {x : Instr} (xs : List Instr)
    {c : CBInstr} (k : CBKind) (hpid : x.programId = Pid.computeBudget)
    (hparse : x.parse = some c) (hk : ¬ c.kind = k) :
    firstDirectiveValue (x :: xs) k = firstDirectiveValue xs k := by
  simp [firstDirectiveValue, List.findSome?_cons, Instr.directive, hpid,
    hparse, hk]

/-- Rust `countNonCB` ignores a compute-budget instruction. -/
theorem countNonCB_cons_CB {x : Instr} (xs : List Instr)
    (hpid : x.programId = Pid.computeBudget) :
    countNonCB (x :: xs) = countNonCB xs := by
  simp [countNonCB, List.countP_cons, hpid]

/-- Rust `countNonCB` counts a non-compute-budget instruction. -/
theorem countNonCB_cons_nonCB {x : Instr} (xs : List Instr)
    (hpid : ¬ x.programId = Pid.computeBudget) :
    countNonCB (x :: xs) = countNonCB xs + 1 := by
  simp [countNonCB, List.countP_cons, hpid]


/-- Characterization of a successful scan: each register ends at the first
directive payload of its kind (or its incoming value), the counter ends at
the saturating count of ordinary instructions, and any heap size recorded
during the scan passed `sanitize_requested_heap_size`. -/
theorem cbScan_ok_characterize (l : List Instr) :
    ∀ (i : Nat) (st st' : CBState), cbScan i st l = .ok st' →
      st.numNonComputeBudgetInstructions ≤ U32_MAX →
      st'.numNonComputeBudgetInstructions =
          min (st.numNonComputeBudgetInstructions + countNonCB l) U32_MAX ∧
      st'.updatedComputeUnitLimit =
          st.updatedComputeUnitLimit.or (firstDirectiveValue l .unitLimit) ∧
      st'.updatedComputeUnitPrice =
          st.updatedComputeUnitPrice.or (firstDirectiveValue l .unitPrice) ∧
      st'.requestedHeapSize =
          st.requestedHeapSize.or (firstDirectiveValue l .heapFrame) ∧
      st'.updatedLoadedAccountsDataSizeLimit =
          st.updatedLoadedAccountsDataSizeLimit.or
            (firstDirectiveValue l .loadedLimit) ∧
      (∀ b, st'.requestedHeapSize = some b →
        st.requestedHeapSize = some b ∨
          sanitize_requested_heap_size b = true) := by
  induction l with
  | nil =>
      intro i st st' h hnum
      rw [cbScan_nil] at h
      cases h
      refine ⟨?_, ?_, ?_, ?_, ?_, ?_⟩
      · simp only [countNonCB, List.countP_nil]
        omega
      · simp [firstDirectiveValue]
      · simp [firstDirectiveValue]
      · simp [firstDirectiveValue]
      · simp [firstDirectiveValue]
      · intro b hb
        exact Or.inl hb
  | cons x xs ih =>
      intro i st st' h hnum
      rw [cbScan_cons] at h
      by_cases hpid : x.programId = Pid.computeBudget
      · cases hparse : x.parse with
        | none => simp [cbStep, hpid, hparse] at h
        | some c =>
          cases c with
          | requestHeapFrame b =>
              cases hseen : st.requestedHeapSize with
              | some v => simp [cbStep, hpid, hparse, hseen] at h
              | none =>
                cases hsan : sanitize_requested_heap_size b with
                | false => simp [cbStep, hpid, hparse, hseen, hsan] at h
                | true =>
                  simp only [cbStep, hpid, hparse, hseen, hsan,
                    Option.isSome_none, Bool.false_eq_true, if_true,
                    if_false, reduceIte] at h
                  obtain ⟨h1, h2, h3, h4, h5, h6⟩ :=
                    ih (i + 1) _ st' h (by simpa using hnum)
                  refine ⟨?_, ?_, ?_, ?_, ?_, ?_⟩
                  · simpa [countNonCB_cons_CB xs hpid] using h1
                  · simpa [firstDirectiveValue_cons_miss xs CBKind.unitLimit hpid hparse
                      (by simp [CBInstr.kind])] using h2
                  · simpa [firstDirectiveValue_cons_miss xs CBKind.unitPrice hpid hparse
                      (by simp [CBInstr.kind])] using h3
                  · simpa [hseen,
                      firstDirectiveValue_cons_hit xs CBKind.heapFrame hpid hparse
                        (by simp [CBInstr.kind]), CBInstr.value] using h4
                  · simpa [firstDirectiveValue_cons_miss xs CBKind.loadedLimit hpid hparse
                      (by simp [CBInstr.kind])] using h5
                  · intro b' hb'
                    rcases h6 b' hb' with h' | h'
                    · right
                      have hbb : b = b' := by simpa using h'
                      exact hbb ▸ hsan
                    · exact Or.inr h'
          | setComputeUnitLimit u =>
              cases hseen : st.updatedComputeUnitLimit with
              | some v => simp [cbStep, hpid, hparse, hseen] at h
              | none =>
                simp only [cbStep, hpid, hparse, hseen, Option.isSome_none,
                  Bool.false_eq_true, if_false, reduceIte] at h
                obtain ⟨h1, h2, h3, h4, h5, h6⟩ :=
                  ih (i + 1) _ st' h (by simpa using hnum)
                refine ⟨?_, ?_, ?_, ?_, ?_, ?_⟩
                · simpa [countNonCB_cons_CB xs hpid] using h1
                · simpa [hseen,
                    firstDirectiveValue_cons_hit xs CBKind.unitLimit hpid hparse
                      (by simp [CBInstr.kind]), CBInstr.value] using h2
                · simpa [firstDirectiveValue_cons_miss xs CBKind.unitPrice hpid hparse
                    (by simp [CBInstr.kind])] using h3
                · simpa [firstDirectiveValue_cons_miss xs CBKind.heapFrame hpid hparse
                    (by simp [CBInstr.kind])] using h4
                · simpa [firstDirectiveValue_cons_miss xs CBKind.loadedLimit hpid hparse
                    (by simp [CBInstr.kind])] using h5
                · intro b' hb'
                  rcases h6 b' hb' with h' | h'
                  · exact Or.inl h'
                  · exact Or.inr h'
          | setComputeUnitPrice u =>
              cases hseen : st.updatedComputeUnitPrice with
              | some v => simp [cbStep, hpid, hparse, hseen] at h
              | none =>
                simp only [cbStep, hpid, hparse, hseen, Option.isSome_none,
                  Bool.false_eq_true, if_false, reduceIte] at h
                obtain ⟨h1, h2, h3, h4, h5, h6⟩ :=
                  ih (i + 1) _ st' h (by simpa using hnum)
                refine ⟨?_, ?_, ?_, ?_, ?_, ?_⟩
                · simpa [countNonCB_cons_CB xs hpid] using h1
                · simpa [firstDirectiveValue_cons_miss xs CBKind.unitLimit hpid hparse
                    (by simp [CBInstr.kind])] using h2
                · simpa [hseen,
                    firstDirectiveValue_cons_hit xs CBKind.unitPrice hpid hparse
                      (by simp [CBInstr.kind]), CBInstr.value] using h3
                · simpa [firstDirectiveValue_cons_miss xs CBKind.heapFrame hpid hparse
                    (by simp [CBInstr.kind])] using h4
                · simpa [firstDirectiveValue_cons_miss xs CBKind.loadedLimit hpid hparse
                    (by simp [CBInstr.kind])] using h5
                · intro b' hb'
                  rcases h6 b' hb' with h' | h'
                  · exact Or.inl h'
                  · exact Or.inr h'
          | setLoadedAccountsDataSizeLimit u =>
              cases hseen : st.updatedLoadedAccountsDataSizeLimit with
              | some v => simp [cbStep, hpid, hparse, hseen] at h
              | none =>
                simp only [cbStep, hpid, hparse, hseen, Option.isSome_none,
                  Bool.false_eq_true, if_false, reduceIte] at h
                obtain ⟨h1, h2, h3, h4, h5, h6⟩ :=
                  ih (i + 1) _ st' h (by simpa using hnum)
                refine ⟨?_, ?_, ?_, ?_, ?_, ?_⟩
                · simpa [countNonCB_cons_CB xs hpid] using h1
                · simpa [firstDirectiveValue_cons_miss xs CBKind.unitLimit hpid hparse
                    (by simp [CBInstr.kind])] using h2
                · simpa [firstDirectiveValue_cons_miss xs CBKind.unitPrice hpid hparse
                    (by simp [CBInstr.kind])] using h3
                · simpa [firstDirectiveValue_cons_miss xs CBKind.heapFrame hpid hparse
                    (by simp [CBInstr.kind])] using h4
                · simpa [hseen,
                    firstDirectiveValue_cons_hit xs CBKind.loadedLimit hpid hparse
                      (by simp [CBInstr.kind]), CBInstr.value] using h5
                · intro b' hb'
                  rcases h6 b' hb' with h' | h'
                  · exact Or.inl h'
                  · exact Or.inr h'
      · simp only [cbStep, hpid, if_false, reduceIte] at h
        obtain ⟨h1, h2, h3, h4, h5, h6⟩ :=
          ih (i + 1) _ st' h (by simp only [satAddU32]; omega)
        refine ⟨?_, ?_, ?_, ?_, ?_, ?_⟩
        · rw [countNonCB_cons_nonCB xs hpid]
          simp only [satAddU32] at h1
          simp only [h1]
          omega
        · simpa [firstDirectiveValue_cons_nonCB xs CBKind.unitLimit hpid] using h2
        · simpa [firstDirectiveValue_cons_nonCB xs CBKind.unitPrice hpid] using h3
        · simpa [firstDirectiveValue_cons_nonCB xs CBKind.heapFrame hpid] using h4
        · simpa [firstDirectiveValue_cons_nonCB xs CBKind.loadedLimit hpid] using h5
        · intro b' hb'
          rcases h6 b' hb' with h' | h'
          · exact Or.inl h'
          · exact Or.inr h'

end Tachyon

namespace Tachyon

/-- C4: every accepted result of `process_compute_budget_instructions`
satisfies the limits invariants — `compute_unit_limit ≤ 1,400,000`,
`updated_heap_bytes` in `[32768, 262144]` and a multiple of 1024,
`loaded_accounts_bytes ≤ 64 MiB` — and each field is the explicit directive
value or its default (heap 32 KiB; limit: ordinary-instruction count times
200,000 saturating in `u32`; price 0; loaded size 64 MiB), clamped, for
arbitrary directive values. -/
theorem claim_C4_accepted_limits_invariants (l : List Instr)
    (limits : ComputeBudgetLimits)
    (h : process_compute_budget_instructions l = .ok limits) :
    limits.computeUnitLimit ≤ 1400000 ∧
    32768 ≤ limits.updatedHeapBytes ∧ limits.updatedHeapBytes ≤ 262144 ∧
    limits.updatedHeapBytes % 1024 = 0 ∧
    limits.loadedAccountsBytes ≤ 67108864 ∧
    limits.updatedHeapBytes =
      min ((firstDirectiveValue l .heapFrame).getD 32768) 262144 ∧
    limits.computeUnitLimit =
      min ((firstDirectiveValue l .unitLimit).getD
        (satMulU32 (min (countNonCB l) U32_MAX) 200000)) 1400000 ∧
    limits.computeUnitPrice = (firstDirectiveValue l .unitPrice).getD 0 ∧
    limits.loadedAccountsBytes =
      min ((firstDirectiveValue l .loadedLimit).getD 67108864) 67108864 := by
  unfold process_compute_budget_instructions at h
  cases hsc : cbScan 0 CBState.init l with
  | error e =>
      rw [hsc] at h
      simp [Except.map] at h
  | ok st =>
      rw [hsc] at h
      simp only [Except.map, Except.ok.injEq] at h
      subst h
      obtain ⟨h1, h2, h3, h4, h5, h6⟩ :=
        cbScan_ok_characterize l 0 CBState.init st hsc (Nat.zero_le _)
      simp only [CBState.init, Option.none_or, Nat.zero_add,
        Option.some.injEq, false_or] at h1 h2 h3 h4 h5 h6
      have hheap : 32768 ≤ (cbLimits st).updatedHeapBytes ∧
          (cbLimits st).updatedHeapBytes ≤ 262144 ∧
          (cbLimits st).updatedHeapBytes % 1024 = 0 := by
        cases hst : st.requestedHeapSize with
        | none =>
            simp only [cbLimits, hst, Option.getD_none, HEAP_LENGTH,
              MAX_HEAP_FRAME_BYTES]
            omega
        | some b =>
            have hsan := h6 b hst
            rcases hsan with hsan | hsan
            · exact absurd hsan (by simp)
            · simp only [sanitize_requested_heap_size, Bool.and_eq_true,
                decide_eq_true_eq, HEAP_LENGTH, MAX_HEAP_FRAME_BYTES]
                at hsan
              simp only [cbLimits, hst, Option.getD_some,
                MAX_HEAP_FRAME_BYTES]
              omega
      refine ⟨?_, hheap.1, hheap.2.1, hheap.2.2, ?_, ?_, ?_, ?_, ?_⟩
      · simp only [cbLimits]
        exact Nat.min_le_right _ _
      · simp only [cbLimits, MAX_LOADED_ACCOUNTS_DATA_SIZE_BYTES]
        omega
      · simp only [cbLimits, h4, HEAP_LENGTH, MAX_HEAP_FRAME_BYTES]
      · simp only [cbLimits, h2, h1, DEFAULT_INSTRUCTION_COMPUTE_UNIT_LIMIT,
          MAX_COMPUTE_UNIT_LIMIT]
      · simp only [cbLimits, h3]
      · simp only [cbLimits, h5, MAX_LOADED_ACCOUNTS_DATA_SIZE_BYTES]

/-- Witness for C4 at `c4Stream` (with an adversarial 3,000,000,000
compute-unit-limit request): processing succeeds and the accepted limits
satisfy the invariants. -/
theorem claim_C4_accepted_limits_invariants_witness :
    process_compute_budget_instructions c4Stream =
      .ok ⟨40960, 1400000, 5, 123⟩ ∧
    (⟨40960, 1400000, 5, 123⟩ : ComputeBudgetLimits).computeUnitLimit ≤
        1400000 ∧
    32768 ≤ (⟨40960, 1400000, 5, 123⟩ :
        ComputeBudgetLimits).updatedHeapBytes :=
  ⟨by decide,
    (claim_C4_accepted_limits_invariants c4Stream ⟨40960, 1400000, 5, 123⟩
        (by decide)).1,
    (claim_C4_accepted_limits_invariants c4Stream ⟨40960, 1400000, 5, 123⟩
        (by decide)).2.1⟩

end Tachyon

namespace Tachyon

/-! ### Claim C5: the fee crate cost model -/

/-- Rust `hasSetComputeUnitLimit` unfolded over a cons cell. -/
theorem hasSetComputeUnitLimit_cons (x : Instr) (xs : List Instr) :
    hasSetComputeUnitLimit (x :: xs) =
      ((decide (x.programId = Pid.computeBudget) &&
        match x.parse with
        | some (.setComputeUnitLimit _) => true
        | _ => false) || hasSetComputeUnitLimit xs) := by
  simp [hasSetComputeUnitLimit, List.any_cons]

/-- The three fields of one fee-crate cost-scan step, stated separately. -/
theorem feeCostStep_fields (bc : Pid → Option Nat) (acc : FeeCostAcc)
    (x : Instr) :
    (feeCostStep bc acc x).builtin_costs =
        (match bc x.programId with
          | some c => satAddU64 acc.builtin_costs c
          | none => acc.builtin_costs) ∧
    (feeCostStep bc acc x).bpf_costs =
        (match bc x.programId with
          | some _ => acc.bpf_costs
          | none => min (satAddU64 acc.bpf_costs
              DEFAULT_INSTRUCTION_COMPUTE_UNIT_LIMIT) MAX_COMPUTE_UNIT_LIMIT) ∧
    (feeCostStep bc acc x).compute_unit_limit_is_set =
        (acc.compute_unit_limit_is_set ||
          (decide (x.programId = Pid.computeBudget) &&
            match x.parse with
            | some (.setComputeUnitLimit _) => true
            | _ => false)) := by
  unfold feeCostStep
  cases hb : bc x.programId with
  | none =>
      by_cases hpid : x.programId = Pid.computeBudget
      · cases hparse : x.parse with
        | none => simp [hpid, hparse]
        | some c => cases c <;> simp [hpid, hparse]
      · simp [hpid]
  | some v =>
      by_cases hpid : x.programId = Pid.computeBudget
      · cases hparse : x.parse with
        | none => simp [hpid, hparse]
        | some c => cases c <;> simp [hpid, hparse]
      · simp [hpid]

/-- The combined fee-crate cost scan splits into the three independent
claim-side folds. -/
theorem feeCostFold_split (bc : Pid → Option Nat) (l : List Instr) :
    ∀ acc : FeeCostAcc,
      l.foldl (feeCostStep bc) acc =
        ⟨l.foldl
            (fun total ins =>
              match bc ins.programId with
              | some c => satAddU64 total c
              | none => total)
            acc.builtin_costs,
          l.foldl
            (fun total ins =>
              match bc ins.programId with
              | some _ => total
              | none => min (satAddU64 total 200000) 1400000)
            acc.bpf_costs,
          acc.compute_unit_limit_is_set || hasSetComputeUnitLimit l⟩ := by
  induction l with
  | nil =>
      intro acc
      cases acc
      simp [hasSetComputeUnitLimit]
  | cons x xs ih =>
      intro acc
      rw [List.foldl_cons, List.foldl_cons, List.foldl_cons, ih]
      obtain ⟨hf1, hf2, hf3⟩ := feeCostStep_fields bc acc x
      rw [hf1, hf2, hf3, hasSetComputeUnitLimit_cons]
      simp only [DEFAULT_INSTRUCTION_COMPUTE_UNIT_LIMIT,
        MAX_COMPUTE_UNIT_LIMIT, Bool.or_assoc]

/-- C5: the fee crate's `get_transaction_cost` is the saturating sum of the
claim-side builtin cost and the non-builtin cost (200,000 accrued per
non-builtin instruction, capped at 1,400,000), the latter replaced by the
processed compute-unit limit exactly when some non-builtin cost accrued and
an explicit set-compute-unit-limit directive is present (and the
compute-budget processing succeeded). -/
theorem claim_C5_fee_transaction_cost (bc : Pid → Option Nat)
    (message : Message) :
    FeeLib.get_transaction_cost bc message =
      satAddU64 (builtinCostSum bc message.instrs)
        (match process_compute_budget_instructions message.instrs with
          | .ok limits =>
              if bpfAccrued bc message.instrs ≠ 0 ∧
                  hasSetComputeUnitLimit message.instrs = true then
                limits.computeUnitLimit
              else bpfAccrued bc message.instrs
          | .error _ => bpfAccrued bc message.instrs) := by
  unfold FeeLib.get_transaction_cost
  rw [feeCostFold_split bc message.instrs ⟨0, 0, false⟩]
  simp only [builtinCostSum, bpfAccrued, Bool.false_or]
  cases hp : process_compute_budget_instructions message.instrs with
  | ok limits =>
      simp only
      congr 1
      simp only [Nat.pos_iff_ne_zero]
  | error e =>
      simp only

end Tachyon

namespace Tachyon

/-! ### Claim C6: protocol zero-fee paths -/

/-- C6: the fee crate's `calculate_fee_details` returns zero `FeeDetails`
whenever the zero-fees override is set or some referenced account key is
the vote program id, whatever the embedded directives, the
prioritization-fee argument, the builtin-cost table and
`lamports_per_signature`; and `ImmutableDeserializedPacket::new` stores
`compute_unit_price = 0` for every packet whose metadata marks it a simple
vote, whatever price directive the transaction embeds. -/
theorem claim_C6_zero_fee_for_votes :
    (∀ (bc : Pid → Option Nat) (message : Message) (zero_fees : Bool)
        (lps pf : Nat),
      zero_fees = true ∨ is_vote_transaction message = true →
      FeeLib.calculate_fee_details bc message zero_fees lps pf = ⟨0, 0⟩) ∧
    (∀ (dec : List Nat → Option (Nat × Nat)) (intake : PacketIntake)
        (pkt : ImmutableDeserializedPacket),
      intake.isSimpleVoteMeta = true →
      ImmutableDeserializedPacket.new dec intake = .ok pkt →
      pkt.compute_unit_price = 0) := by
  constructor
  · intro bc message zero_fees lps pf h
    cases zero_fees with
    | true => rfl
    | false =>
        rcases h with h | h
        · cases h
        · simp [FeeLib.calculate_fee_details, h, ExtFeeDetails.mkDefault]
  · intro dec intake pkt hvote hnew
    simp only [ImmutableDeserializedPacket.new, hvote, if_true,
      reduceIte] at hnew
    split at hnew
    · cases hnew
    · split at hnew
      · cases hnew
      · split at hnew
        · cases hnew
        · split at hnew
          · cases hnew
          · cases hnew
            rfl

/-- Witness for C6: the vote-keyed message yields zero fee details with the
zero-fees flag off, and the vote-marked intake with an embedded price of 42
is admitted with stored price 0. -/
theorem claim_C6_zero_fee_for_votes_witness :
    is_vote_transaction c6Message = true ∧
    FeeLib.calculate_fee_details BUILT_IN_INSTRUCTION_COSTS c6Message false
      5000 9 = ⟨0, 0⟩ ∧
    c6Intake.isSimpleVoteMeta = true ∧
    ImmutableDeserializedPacket.new c6Dec c6Intake = .ok c6Packet ∧
    c6Packet.compute_unit_price = 0 :=
  ⟨by decide,
    claim_C6_zero_fee_for_votes.1 BUILT_IN_INSTRUCTION_COSTS c6Message false
      5000 9 (Or.inr (by decide)),
    by decide, by decide,
    claim_C6_zero_fee_for_votes.2 c6Dec c6Intake c6Packet (by decide)
      (by decide)⟩

/-! ### Claim C8: packet_message overflow handling -/

/-- The checked multiply-then-add chain of `packet_message`, flattened. -/
theorem checkedMulAdd_eq (l c s : Nat) :
    (checkedMulUsize l c).bind (fun v => checkedAddUsize v s) =
      if l * c + s ≤ USIZE_MAX then some (l * c + s) else none := by
  unfold checkedMulUsize checkedAddUsize
  by_cases h1 : l * c ≤ USIZE_MAX
  · simp [h1]
  · have h2 : ¬ (l * c + s ≤ USIZE_MAX) := by omega
    simp [h1, h2]

/-- C8: `packet_message` is a total function; whenever the declared
signature count times the 64-byte signature width plus the varint prefix
size overflows `usize` or exceeds the buffer length, it returns
`SignatureOverflowed` carrying the prefix size (checked multiplication and
addition, no wrap), and otherwise it returns the message bytes. -/
theorem claim_C8_packet_message_no_overflow
    (dec : List Nat → Option (Nat × Nat)) (p : Packet) (l s : Nat)
    (hdisc : p.discard = false) (hdec : dec p.buffer = some (l, s)) :
    (l * SIZE_OF_SIGNATURE + s > USIZE_MAX ∨
        l * SIZE_OF_SIGNATURE + s > p.buffer.length →
      packet_message dec p = .error (.SignatureOverflowed s)) ∧
    (l * SIZE_OF_SIGNATURE + s ≤ USIZE_MAX →
      l * SIZE_OF_SIGNATURE + s ≤ p.buffer.length →
      packet_message dec p = .ok (p.buffer.drop (l * SIZE_OF_SIGNATURE + s))) := by
  have hdf : p.dataFull = some p.buffer := by
    simp [Packet.dataFull, hdisc]
  constructor
  · intro hover
    unfold packet_message
    rw [hdf]
    simp only [Option.some_bind, hdec, checkedMulAdd_eq]
    by_cases hm : l * SIZE_OF_SIGNATURE + s ≤ USIZE_MAX
    · rw [if_pos hm]
      have hlen : ¬ (l * SIZE_OF_SIGNATURE + s ≤ p.buffer.length) := by
        omega
      simp [Packet.dataFrom, hdisc, hlen]
    · rw [if_neg hm]
  · intro h1 h2
    unfold packet_message
    rw [hdf]
    simp only [Option.some_bind, hdec, checkedMulAdd_eq]
    rw [if_pos h1]
    simp [Packet.dataFrom, hdisc, h2]

/-- Witness for C8: a 10-byte undiscarded packet whose decoder reports two
signatures (128 bytes) and a 3-byte prefix; the message offset 131 exceeds
the buffer, and `packet_message` returns `SignatureOverflowed(3)`. -/
theorem claim_C8_packet_message_no_overflow_witness :
    (⟨List.replicate 10 0, false⟩ : Packet).discard = false ∧
    (fun (_ : List Nat) => some ((2 : Nat), (3 : Nat)))
        (List.replicate 10 0) = some (2, 3) ∧
    2 * SIZE_OF_SIGNATURE + 3 > (List.replicate 10 (0 : Nat)).length ∧
    packet_message (fun _ => some (2, 3)) ⟨List.replicate 10 0, false⟩ =
      .error (.SignatureOverflowed 3) :=
  ⟨rfl, rfl, by decide,
    (claim_C8_packet_message_no_overflow (fun _ => some (2, 3))
        ⟨List.replicate 10 0, false⟩ 2 3 rfl rfl).1 (Or.inr (by decide))⟩

end Tachyon
